import Mathlib

/-!
Verification of the JJ Auto API gateway (FastAPI + httpx gateway over the
Tekmetric shop-management API).

The embedding below translates the relevant parts of `main.py` and
`routers/*.py` into Lean: each outbound HTTP call is recorded in an explicit
request trace, upstream responses are supplied by oracles (a fixed response
value or a function from ids/pages to responses), and Python exceptions
become `Except` error values.  The Python exception classes are mirrored by
the constructors of `GatewayError`:

* `runtimeError`    — `RuntimeError` raised by the module-level configuration
                      check (`main.py` lines 20–23); the spec calls this
                      `ConfigurationError`;
* `httpStatusError` — `httpx.HTTPStatusError` raised by
                      `Response.raise_for_status()` (carries the response
                      status and body); for the token endpoint the spec calls
                      this `AuthenticationError`, elsewhere `UpstreamError`;
* `keyError`        — `KeyError` raised by `res.json()["access_token"]` when
                      the field is absent (the spec's `AuthenticationError`
                      for an absent token);
* `httpException`   — FastAPI `HTTPException` raised deliberately by a
                      handler (the spec's `UpstreamNotFound` when the status
                      is 404).
-/

namespace McpTek

/-- The environment configuration read at module load
(`main.py` lines 16–18).  `os.getenv` returns `None` when a variable is
unset; since the code only ever tests the values for Python truthiness
(where both `None` and `""` are falsy), an unset string variable is
modelled as `""`.  `SHOP_ID = int(os.getenv("TEKMETRIC_SHOP_ID", 0))` is
falsy exactly when it is `0`. -/
structure Config where
  clientId : String
  clientSecret : String
  shopId : Int
deriving Repr, DecidableEq

/-- Python exceptions that the gateway code can raise, named after the
exception classes appearing in the source (see the file header for the
mapping onto the spec's error taxonomy). -/
inductive GatewayError where
  | runtimeError (msg : String)
  | httpStatusError (status : Nat) (body : String)
  | keyError (key : String)
  | httpException (status : Nat) (detail : String)
deriving Repr, DecidableEq

/-- An outbound HTTP request issued by the gateway, identified by upstream
endpoint and arguments.  Constructors cover exactly the calls the verified
handlers make. -/
inductive Request where
  | oauthToken
  | getVehicle (id : Int)
  | getCustomer (id : Int)
  | getEmployee (id : Int)
  | getRepairOrder (id : Int)
  | patchRepairOrder (id : Int) (payload : List (String × String))
  | patchVehicle (id : Int) (payload : List (String × String))
  | listCustomers (page : Nat)
deriving Repr, DecidableEq, BEq

/-- An upstream HTTP response: status code, raw body text (`res.text`) and,
for the token endpoint, the string-valued JSON fields the code reads
(`res.json()`). -/
structure HttpResponse where
  status : Nat
  body : String
  json : List (String × String)
deriving Repr

/-- `httpx.Response.is_success`: status in the 2xx range. -/
def is_success (status : Nat) : Bool :=
  decide (200 ≤ status ∧ status < 300)

/-- `res.raise_for_status()`: raises `httpx.HTTPStatusError` (carrying the
upstream status and body) on every non-2xx response, otherwise returns. -/
def raise_for_status (res : HttpResponse) : Except GatewayError Unit :=
  if is_success res.status then .ok () else .error (.httpStatusError res.status res.body)

/-- `res.json()[key]` access pattern: field lookup in the parsed JSON
object, `none` when the field is absent. -/
def jsonGet (j : List (String × String)) (k : String) : Option String :=
  match j with
  | [] => none
  | p :: rest => if p.1 = k then some p.2 else jsonGet rest k

/-- Python truthiness of a string (`""` and unset are falsy). -/
def pyTruthyStr (s : String) : Bool := s ≠ ""

/-- The module-level configuration check of `main.py` lines 20–23:
`if not CLIENT_ID or not CLIENT_SECRET: raise RuntimeError(...)`, then
`if not SHOP_ID: raise RuntimeError(...)`.  This runs at import time,
before any handler (and hence any network call) can execute. -/
def startupCheck (cfg : Config) : Except GatewayError Unit :=
  if !pyTruthyStr cfg.clientId || !pyTruthyStr cfg.clientSecret then
    .error (.runtimeError "CLIENT_ID or CLIENT_SECRET not set")
  else if cfg.shopId = 0 then
    .error (.runtimeError "TEKMETRIC_SHOP_ID not set")
  else
    .ok ()

/-- The result part of `get_access_token` (`main.py` lines 36–46) given the
token-endpoint response: `res.raise_for_status()` then
`res.json()["access_token"]` (a `KeyError` when the field is absent). -/
def get_access_token_result (resp : HttpResponse) : Except GatewayError String :=
  match raise_for_status resp with
  | .error e => .error e
  | .ok _ =>
    match jsonGet resp.json "access_token" with
    | none => .error (.keyError "access_token")
    | some t => .ok t

/-- `get_access_token` (`main.py` lines 36–46): builds the Basic-auth header
and unconditionally issues one `POST /oauth/token`, then inspects the
response.  The function holds no state whatsoever — there is no cached
credential, no expiry bookkeeping — so the request trace of every call is
exactly one token-endpoint request. -/
def get_access_token (resp : HttpResponse) : Except GatewayError String × List Request :=
  (get_access_token_result resp, [Request.oauthToken])

/-- Two consecutive `get_access_token()` calls against the same
token-endpoint oracle: the combined request trace. -/
def twoCallsTrace (resp : HttpResponse) : List Request :=
  (get_access_token resp).2 ++ (get_access_token resp).2

/-- `get_access_token` as reachable in the running program: the module-level
configuration check of `main.py` lines 20–23 runs at import, before any
handler can call `get_access_token`; with a failing check the process never
serves and no request is ever issued. -/
def get_access_token_from_startup (cfg : Config) (resp : HttpResponse) :
    Except GatewayError String × List Request :=
  match startupCheck cfg with
  | .error e => (.error e, [])
  | .ok _ => get_access_token resp

/-- A successful token-endpoint response. -/
def okTokenResponse : HttpResponse :=
  { status := 200, body := "ok", json := [("access_token", "tok123"), ("expires_in", "3600")] }

/-- A 500 token-endpoint response. -/
def errTokenResponse : HttpResponse :=
  { status := 500, body := "server error", json := [] }

/-- A 200 token-endpoint response whose JSON body has no access_token. -/
def noTokenResponse : HttpResponse :=
  { status := 200, body := "ok", json := [("expires_in", "3600")] }

/-- C1, counterexample.  The claim asserts that two `get_access_token()`
calls within the validity window of a previously acquired token issue at
most one token-endpoint request.  With a perfectly valid token response
(`expires_in` 3600, so both calls fall well inside any claimed window), two
calls issue two token-endpoint requests: `get_access_token` holds no cache. -/
theorem token_cache_counterexample :
    (twoCallsTrace okTokenResponse).count Request.oauthToken = 2 ∧
      ¬ (twoCallsTrace okTokenResponse).count Request.oauthToken ≤ 1 := by
  constructor
  · rfl
  · decide

/-- C1, amended.  `get_access_token` (`main.py` 36–46) keeps no cached
credential and no expiry state: every call issues exactly one POST to the
token endpoint, so two consecutive calls always issue exactly two
token-endpoint requests, regardless of timing or of the response. -/
theorem get_access_token_no_cache (resp : HttpResponse) :
    (get_access_token resp).2 = [Request.oauthToken] ∧
      twoCallsTrace resp = [Request.oauthToken, Request.oauthToken] :=
  ⟨rfl, rfl⟩

/-- C4.  If the client identifier or the client secret is empty/unset, the
module-level check (`main.py` 20–21) aborts startup with
`RuntimeError("CLIENT_ID or CLIENT_SECRET not set")` (the spec's
`ConfigurationError`) before `get_access_token` can run, so the operation
fails and zero outbound requests are issued. -/
theorem configuration_error_no_network (cfg : Config) (resp : HttpResponse)
    (h : cfg.clientId = "" ∨ cfg.clientSecret = "") :
    get_access_token_from_startup cfg resp =
      (.error (.runtimeError "CLIENT_ID or CLIENT_SECRET not set"), []) := by
  have hcond : (!pyTruthyStr cfg.clientId || !pyTruthyStr cfg.clientSecret) = true := by
    rcases h with h | h <;> simp [pyTruthyStr, h]
  unfold get_access_token_from_startup startupCheck
  rw [if_pos hcond]

/-- C4, witness: a configuration with an empty client secret. -/
theorem configuration_error_no_network_witness :
    get_access_token_from_startup ⟨"id", "", 7⟩ okTokenResponse =
      (.error (.runtimeError "CLIENT_ID or CLIENT_SECRET not set"), []) :=
  configuration_error_no_network ⟨"id", "", 7⟩ okTokenResponse (Or.inr rfl)

/-- C5.  For every token-endpoint response: a non-2xx status makes
`get_access_token` fail with `httpx.HTTPStatusError` (the spec's
`AuthenticationError`) carrying the upstream status and body; a 2xx
response whose JSON has no `access_token` field makes it fail with
`KeyError "access_token"` (the spec's `AuthenticationError` for an absent
token).  The function holds no credential state at all (see
`get_access_token`), so nothing is cached on either path. -/
theorem token_endpoint_error_handling (resp : HttpResponse) :
    (is_success resp.status = false →
      get_access_token resp =
        (.error (.httpStatusError resp.status resp.body), [Request.oauthToken])) ∧
    (is_success resp.status = true → jsonGet resp.json "access_token" = none →
      get_access_token resp = (.error (.keyError "access_token"), [Request.oauthToken])) := by
  constructor
  · intro h
    simp [get_access_token, get_access_token_result, raise_for_status, h]
  · intro h hnone
    simp [get_access_token, get_access_token_result, raise_for_status, h, hnone]

/-- C5, witness: a 500 response and a token-less 200 response. -/
theorem token_endpoint_error_handling_witness :
    get_access_token errTokenResponse =
      (.error (.httpStatusError 500 "server error"), [Request.oauthToken]) ∧
    get_access_token noTokenResponse =
      (.error (.keyError "access_token"), [Request.oauthToken]) :=
  ⟨(token_endpoint_error_handling errTokenResponse).1 rfl,
   (token_endpoint_error_handling noTokenResponse).2 rfl rfl⟩

/-!  ## Hydration of open repair orders

`get_open_repair_orders` (`main.py` lines 113–168) and its duplicate
`list_open_repair_orders` (`routers/repair_orders.py` lines 28–74; the inner
`hydrate` functions are textually identical) fetch a page of repair orders
and, per record, look up the referenced vehicle and customer to build
display strings.  The embedding below models the parsed page content and
the per-id lookup results; upstream JSON numbers reaching an f-string are
embedded as their rendered strings. -/

/-- A parsed repair-order record from the page content.  Each field models
the corresponding `ro.get(...)` access; `none` is a missing or null field.
`statusName` models `ro.get("repairOrderStatus", {}).get("name", "Unknown")`
before the default is applied. -/
structure RepairOrder where
  id : Option Int
  repairOrderNumber : Option Int
  vehicleId : Option Int
  customerId : Option Int
  statusName : Option String
  updatedDate : Option String
deriving Repr, DecidableEq

/-- Projection of a fetched vehicle: the fields read by
`v.get('year','') v.get('make','') v.get('model','')`, rendered as strings
(absent fields render as `""`). -/
structure Vehicle where
  year : String
  make : String
  model : String
deriving Repr, DecidableEq

/-- Projection of a fetched customer: `firstName`/`lastName`, rendered as
strings (absent fields render as `""`). -/
structure Customer where
  firstName : String
  lastName : String
deriving Repr, DecidableEq

/-- The flattened output record built by the inner `hydrate` function. -/
structure HydratedRO where
  id : Option Int
  roNumber : Option Int
  vehicle : String
  customer : String
  status : String
  lastUpdated : Option String
deriving Repr, DecidableEq

/-- The upstream lookup oracle: the outcome of `GET /vehicles/{id}` and
`GET /customers/{id}` per id.  `none` means the fetch raised inside the
`try` block (non-2xx via `raise_for_status`, timeout, or malformed body);
`some` is a successful fetch with the projected fields. -/
structure Backend where
  vehicles : Int → Option Vehicle
  customers : Int → Option Customer

/-- Python truthiness of a foreign-key field value: `None` (or a missing
field) and `0` are falsy, every other integer is truthy.  This is the test
performed by `if ro.get("vehicleId"):`. -/
def fkTruthy : Option Int → Bool
  | none => false
  | some n => decide (n ≠ 0)

/-- Python `s or d` for strings: `s` when non-empty, else `d`. -/
def pyOr (s d : String) : String := if s = "" then d else s

/-- Python `str.strip()`: remove leading and trailing whitespace. -/
def pyStrip (s : String) : String :=
  String.mk (((s.data.dropWhile Char.isWhitespace).reverse.dropWhile Char.isWhitespace).reverse)

/-- `f"{v.get('year','')} {v.get('make','')} {v.get('model','')}".strip()`. -/
def vehicleDisplay (v : Vehicle) : String :=
  pyStrip (v.year ++ " " ++ v.make ++ " " ++ v.model)

/-- `f"{c.get('firstName','')} {c.get('lastName','')}".strip()`. -/
def customerDisplay (c : Customer) : String :=
  pyStrip (c.firstName ++ " " ++ c.lastName)

/-- One foreign-key lookup block of the inner `hydrate` function
(`main.py` 133–157): start from the default `"Unknown"`; if the field is
truthy, issue the GET (recorded in the trace) and, when it succeeds, use
the display projection; every exception is swallowed (`except: pass`),
leaving the default. -/
def lookupStep {α : Type} (lookup : Int → Option α) (disp : α → String)
    (req : Int → Request) (fk : Option Int) : String × List Request :=
  match fk with
  | none => ("Unknown", [])
  | some i =>
    if i = 0 then ("Unknown", [])
    else
      match lookup i with
      | some a => (disp a, [req i])
      | none => ("Unknown", [req i])

/-- The inner `hydrate` coroutine (`main.py` 132–166): vehicle lookup, then
customer lookup, then assembly of the output record, with
`vehicle_str or "Unknown"` / `customer_str or "Unknown"` guarding against
empty display strings.  Returns the record together with the requests it
issued. -/
def hydrate (b : Backend) (ro : RepairOrder) : HydratedRO × List Request :=
  let vstep := lookupStep b.vehicles vehicleDisplay Request.getVehicle ro.vehicleId
  let cstep := lookupStep b.customers customerDisplay Request.getCustomer ro.customerId
  ({ id := ro.id
     roNumber := ro.repairOrderNumber
     vehicle := pyOr vstep.1 "Unknown"
     customer := pyOr cstep.1 "Unknown"
     status := ro.statusName.getD "Unknown"
     lastUpdated := ro.updatedDate },
   vstep.2 ++ cstep.2)

/-- `await asyncio.gather(*(hydrate(ro) for ro in ros))` (`main.py` 168):
`gather` returns the results in argument order, so the page result is the
in-order map of `hydrate` over the page content. -/
def get_open_repair_orders (b : Backend) (ros : List RepairOrder) : List HydratedRO :=
  ros.map (fun ro => (hydrate b ro).1)

/-- All hydration sub-requests issued for the page, per record in order. -/
def get_open_repair_orders_trace (b : Backend) (ros : List RepairOrder) : List Request :=
  (ros.map (fun ro => (hydrate b ro).2)).join

/-- Recognizer for vehicle lookups in a request trace. -/
def isVehicleLookup : Request → Bool
  | .getVehicle _ => true
  | _ => false

theorem hydrate_vehicle_eq (b : Backend) (ro : RepairOrder) :
    (hydrate b ro).1.vehicle =
      pyOr (lookupStep b.vehicles vehicleDisplay Request.getVehicle ro.vehicleId).1 "Unknown" :=
  rfl

theorem hydrate_customer_eq (b : Backend) (ro : RepairOrder) :
    (hydrate b ro).1.customer =
      pyOr (lookupStep b.customers customerDisplay Request.getCustomer ro.customerId).1 "Unknown" :=
  rfl

theorem hydrate_trace_eq (b : Backend) (ro : RepairOrder) :
    (hydrate b ro).2 =
      (lookupStep b.vehicles vehicleDisplay Request.getVehicle ro.vehicleId).2 ++
        (lookupStep b.customers customerDisplay Request.getCustomer ro.customerId).2 :=
  rfl

theorem lookupStep_some_ok {α : Type} (lookup : Int → Option α) (disp : α → String)
    (req : Int → Request) {i : Int} {a : α} (h : i ≠ 0) (hl : lookup i = some a) :
    lookupStep lookup disp req (some i) = (disp a, [req i]) := by
  simp [lookupStep, h, hl]

theorem lookupStep_some_fail {α : Type} (lookup : Int → Option α) (disp : α → String)
    (req : Int → Request) {i : Int} (h : i ≠ 0) (hl : lookup i = none) :
    lookupStep lookup disp req (some i) = ("Unknown", [req i]) := by
  simp [lookupStep, h, hl]

theorem lookupStep_vehicle_any (lookup : Int → Option Vehicle) (fk : Option Int) :
    ((lookupStep lookup vehicleDisplay Request.getVehicle fk).2.any isVehicleLookup) =
      fkTruthy fk := by
  cases fk with
  | none => rfl
  | some i =>
    by_cases h : i = 0
    · simp [lookupStep, fkTruthy, h]
    · cases hl : lookup i <;> simp [lookupStep, fkTruthy, h, hl, isVehicleLookup]

theorem lookupStep_customer_any (lookup : Int → Option Customer) (fk : Option Int) :
    ((lookupStep lookup customerDisplay Request.getCustomer fk).2.any isVehicleLookup) =
      false := by
  cases fk with
  | none => rfl
  | some i =>
    by_cases h : i = 0
    · simp [lookupStep, h]
    · cases hl : lookup i <;> simp [lookupStep, h, hl, isVehicleLookup]

theorem pyOr_ne_empty (s d : String) (hd : d ≠ "") : pyOr s d ≠ "" := by
  unfold pyOr
  split
  · exact hd
  · assumption

theorem get_open_repair_orders_get? (b : Backend) (ros : List RepairOrder) (i : Nat) :
    (get_open_repair_orders b ros).get? i =
      (ros.get? i).map (fun ro => (hydrate b ro).1) := by
  simp [get_open_repair_orders, List.get?_map]

theorem get_open_repair_orders_trace_cons (b : Backend) (ro : RepairOrder)
    (rest : List RepairOrder) :
    get_open_repair_orders_trace b (ro :: rest) =
      (hydrate b ro).2 ++ get_open_repair_orders_trace b rest :=
  rfl

/-- C2.  For a page of `N` repair orders, each with a truthy `vehicleId` and
`customerId`, where the vehicle lookup of exactly the `k`-th record fails
(e.g. a 500, swallowed by the `except: pass`) and every other lookup
succeeds: hydration returns `N` records (it is a total function — no
exception escapes), the `k`-th record's vehicle field is the default
`"Unknown"`, and every other enrichment field is the display projection of
its looked-up entity. -/
theorem open_ros_one_failed_vehicle
    (b : Backend) (ros : List RepairOrder) (vid cid : Nat → Int)
    (vs : Nat → Vehicle) (cs : Nat → Customer) (k : Nat) (hk : k < ros.length)
    (hvid : ∀ i (hi : i < ros.length), (ros.get ⟨i, hi⟩).vehicleId = some (vid i) ∧ vid i ≠ 0)
    (hcid : ∀ i (hi : i < ros.length), (ros.get ⟨i, hi⟩).customerId = some (cid i) ∧ cid i ≠ 0)
    (hfail : b.vehicles (vid k) = none)
    (hvs : ∀ i, i < ros.length → i ≠ k → b.vehicles (vid i) = some (vs i))
    (hcs : ∀ i, i < ros.length → b.customers (cid i) = some (cs i)) :
    (get_open_repair_orders b ros).length = ros.length ∧
    ((get_open_repair_orders b ros).get? k).map HydratedRO.vehicle = some "Unknown" ∧
    (∀ i, i < ros.length → i ≠ k →
      ((get_open_repair_orders b ros).get? i).map HydratedRO.vehicle =
        some (pyOr (vehicleDisplay (vs i)) "Unknown")) ∧
    (∀ i, i < ros.length →
      ((get_open_repair_orders b ros).get? i).map HydratedRO.customer =
        some (pyOr (customerDisplay (cs i)) "Unknown")) := by
  refine ⟨by simp [get_open_repair_orders], ?_, ?_, ?_⟩
  · obtain ⟨h1, h2⟩ := hvid k hk
    have hv : (hydrate b (ros.get ⟨k, hk⟩)).1.vehicle = "Unknown" := by
      rw [hydrate_vehicle_eq, h1, lookupStep_some_fail _ _ _ h2 hfail]
      simp [pyOr]
    rw [get_open_repair_orders_get?, List.get?_eq_get hk]
    simp only [Option.map_some']
    exact congrArg some hv
  · intro i hi hik
    obtain ⟨h1, h2⟩ := hvid i hi
    have hv : (hydrate b (ros.get ⟨i, hi⟩)).1.vehicle =
        pyOr (vehicleDisplay (vs i)) "Unknown" := by
      rw [hydrate_vehicle_eq, h1, lookupStep_some_ok _ _ _ h2 (hvs i hi hik)]
    rw [get_open_repair_orders_get?, List.get?_eq_get hi]
    simp only [Option.map_some']
    exact congrArg some hv
  · intro i hi
    obtain ⟨h1, h2⟩ := hcid i hi
    have hc : (hydrate b (ros.get ⟨i, hi⟩)).1.customer =
        pyOr (customerDisplay (cs i)) "Unknown" := by
      rw [hydrate_customer_eq, h1, lookupStep_some_ok _ _ _ h2 (hcs i hi)]
    rw [get_open_repair_orders_get?, List.get?_eq_get hi]
    simp only [Option.map_some']
    exact congrArg some hc

/-- Concrete fixtures used by the witnesses below. -/
def fordEscape : Vehicle := ⟨"2022", "Ford", "Escape"⟩

def aliceSmith : Customer := ⟨"Alice", "Smith"⟩

def bobJones : Customer := ⟨"Bob", "Jones"⟩

def roA : RepairOrder := ⟨some 1, some 1001, some 10, some 20, some "Estimate", some "d1"⟩

def roB : RepairOrder := ⟨some 2, some 1002, some 11, some 21, some "Work-in-Progress", some "d2"⟩

def rosW : List RepairOrder := [roA, roB]

/-- A backend where vehicle 10 and customers 20/21 resolve and vehicle 11's
lookup fails. -/
def bW : Backend :=
  { vehicles := fun i => if i = 10 then some fordEscape else none
    customers := fun i => if i = 20 then some aliceSmith else if i = 21 then some bobJones else none }

def vidW : Nat → Int := fun i => if i = 0 then 10 else 11

def cidW : Nat → Int := fun i => if i = 0 then 20 else 21

def vsW : Nat → Vehicle := fun _ => fordEscape

def csW : Nat → Customer := fun i => if i = 0 then aliceSmith else bobJones

/-- C2, witness: two repair orders, vehicle 11's lookup failing. -/
theorem open_ros_one_failed_vehicle_witness :
    ((get_open_repair_orders bW rosW).get? 1).map HydratedRO.vehicle = some "Unknown" ∧
    ((get_open_repair_orders bW rosW).get? 0).map HydratedRO.vehicle = some "2022 Ford Escape" ∧
    ((get_open_repair_orders bW rosW).get? 0).map HydratedRO.customer = some "Alice Smith" ∧
    (get_open_repair_orders bW rosW).length = 2 := by
  have T := open_ros_one_failed_vehicle bW rosW vidW cidW vsW csW 1 (by decide)
    (by decide) (by decide) (by decide) (by decide) (by decide)
  refine ⟨T.2.1, ?_, ?_, T.1.trans rfl⟩
  · have h := T.2.2.1 0 (by decide) (by decide)
    rw [h]
    decide
  · have h := T.2.2.2 0 (by decide)
    rw [h]
    decide

/-- A record whose `vehicleId` field is present with the value `0`. -/
def roZeroVehicle : RepairOrder := ⟨some 1, some 100, some 0, none, none, none⟩

/-- A backend where every lookup succeeds. -/
def allOkBackend : Backend :=
  { vehicles := fun _ => some fordEscape, customers := fun _ => some aliceSmith }

/-- C3, counterexample.  The claim asserts that a foreign key whose value is
zero is treated as present and looked up as given.  The code tests Python
truthiness (`if ro.get("vehicleId"):`), under which `0` is falsy: on a
record with `vehicleId = 0` and a backend that would succeed, hydration
issues no request at all and leaves the default `"Unknown"`. -/
theorem fk_zero_counterexample :
    roZeroVehicle.vehicleId = some 0 ∧
    (hydrate allOkBackend roZeroVehicle).2 = [] ∧
    (hydrate allOkBackend roZeroVehicle).2.any isVehicleLookup = false ∧
    (hydrate allOkBackend roZeroVehicle).1.vehicle = "Unknown" := by
  refine ⟨rfl, rfl, rfl, by decide⟩

/-- C3, amended.  A related-entity lookup is issued if and only if the
foreign-key field is truthy (present and non-zero): a record lacking
`vehicleId` (or carrying `null`) gets zero vehicle lookups and the default
display value directly; a foreign key of value `0` is likewise skipped and
defaulted (not looked up); any non-zero value — negative included — is
looked up as given. -/
theorem fk_truthiness_amended (b : Backend) (ro : RepairOrder) :
    ((hydrate b ro).2.any isVehicleLookup = fkTruthy ro.vehicleId) ∧
    (∀ n, ro.vehicleId = some n → n ≠ 0 → Request.getVehicle n ∈ (hydrate b ro).2) ∧
    (ro.vehicleId = none →
      (hydrate b ro).2.any isVehicleLookup = false ∧ (hydrate b ro).1.vehicle = "Unknown") ∧
    (ro.vehicleId = some 0 →
      (hydrate b ro).2.any isVehicleLookup = false ∧ (hydrate b ro).1.vehicle = "Unknown") := by
  have hany : (hydrate b ro).2.any isVehicleLookup = fkTruthy ro.vehicleId := by
    rw [hydrate_trace_eq, List.any_append, lookupStep_vehicle_any, lookupStep_customer_any]
    simp
  refine ⟨hany, ?_, ?_, ?_⟩
  · intro n h1 h2
    rw [hydrate_trace_eq, h1]
    cases hl : b.vehicles n with
    | none => rw [lookupStep_some_fail _ _ _ h2 hl]; simp
    | some v => rw [lookupStep_some_ok _ _ _ h2 hl]; simp
  · intro h1
    refine ⟨by rw [hany, h1]; rfl, ?_⟩
    rw [hydrate_vehicle_eq, h1]
    simp [lookupStep, pyOr]
  · intro h1
    refine ⟨by rw [hany, h1]; rfl, ?_⟩
    rw [hydrate_vehicle_eq, h1]
    simp [lookupStep, pyOr]

/-- C3 (amended), witness: a negative-looking non-zero id is looked up as
given (record `roB`, id 11) and a zero id issues no lookup. -/
theorem fk_truthiness_amended_witness :
    Request.getVehicle 11 ∈ (hydrate bW roB).2 ∧
    (hydrate allOkBackend roZeroVehicle).2.any isVehicleLookup = false := by
  constructor
  · exact (fk_truthiness_amended bW roB).2.1 11 rfl (by decide)
  · exact ((fk_truthiness_amended allOkBackend roZeroVehicle).2.2.2 rfl).1

theorem lookupStep_vehicle_filter (lookup : Int → Option Vehicle) (fk : Option Int) :
    ((lookupStep lookup vehicleDisplay Request.getVehicle fk).2.filter isVehicleLookup).length =
      if fkTruthy fk then 1 else 0 := by
  cases fk with
  | none => rfl
  | some i =>
    by_cases h : i = 0
    · simp [lookupStep, fkTruthy, h]
    · cases hl : lookup i <;> simp [lookupStep, fkTruthy, h, hl, isVehicleLookup]

theorem lookupStep_customer_filter (lookup : Int → Option Customer) (fk : Option Int) :
    (lookupStep lookup customerDisplay Request.getCustomer fk).2.filter isVehicleLookup = [] := by
  cases fk with
  | none => rfl
  | some i =>
    by_cases h : i = 0
    · simp [lookupStep, h]
    · cases hl : lookup i <;> simp [lookupStep, h, hl, isVehicleLookup]

theorem hydrate_trace_vehicle_count (b : Backend) (ro : RepairOrder) :
    ((hydrate b ro).2.filter isVehicleLookup).length =
      if fkTruthy ro.vehicleId then 1 else 0 := by
  rw [hydrate_trace_eq, List.filter_append, lookupStep_customer_filter]
  simp [lookupStep_vehicle_filter]

/-- C6.  Hydration preserves length and input order — the `i`-th output is
derived from the `i`-th input record — and never deduplicates: each record
with a truthy `vehicleId` contributes exactly one vehicle lookup to the
page trace, so two records referencing the same vehicle id still trigger
two independent fetches. -/
theorem hydration_preserves_order (b : Backend) (ros : List RepairOrder) :
    (get_open_repair_orders b ros).length = ros.length ∧
    (∀ i, (get_open_repair_orders b ros).get? i =
      (ros.get? i).map (fun ro => (hydrate b ro).1)) ∧
    ((get_open_repair_orders_trace b ros).filter isVehicleLookup).length =
      (ros.filter (fun ro => fkTruthy ro.vehicleId)).length := by
  refine ⟨by simp [get_open_repair_orders], fun i => get_open_repair_orders_get? b ros i, ?_⟩
  induction ros with
  | nil => rfl
  | cons ro rest ih =>
    rw [get_open_repair_orders_trace_cons, List.filter_append, List.length_append,
      hydrate_trace_vehicle_count, ih]
    by_cases h : fkTruthy ro.vehicleId
    · simp [List.filter_cons, h, Nat.add_comm]
    · simp [List.filter_cons, h]

/-- A backend whose entities come back with all projected fields empty. -/
def emptyFieldsBackend : Backend :=
  { vehicles := fun _ => some ⟨"", "", ""⟩, customers := fun _ => some ⟨"", ""⟩ }

/-- C9.  The `vehicle` and `customer` fields of a hydrated record are never
the empty string (`vehicle_str or "Unknown"` substitutes the default), and
when a lookup succeeds but all projected fields are empty — so the stripped
display string is `""` — the field becomes `"Unknown"`. -/
theorem hydrated_display_nonempty (b : Backend) (ro : RepairOrder) :
    (hydrate b ro).1.vehicle ≠ "" ∧
    (hydrate b ro).1.customer ≠ "" ∧
    (∀ n v, ro.vehicleId = some n → n ≠ 0 → b.vehicles n = some v →
      v.year = "" → v.make = "" → v.model = "" → (hydrate b ro).1.vehicle = "Unknown") ∧
    (∀ n c, ro.customerId = some n → n ≠ 0 → b.customers n = some c →
      c.firstName = "" → c.lastName = "" → (hydrate b ro).1.customer = "Unknown") := by
  refine ⟨?_, ?_, ?_, ?_⟩
  · rw [hydrate_vehicle_eq]
    exact pyOr_ne_empty _ _ (by decide)
  · rw [hydrate_customer_eq]
    exact pyOr_ne_empty _ _ (by decide)
  · intro n v h1 h2 h3 hy hm hmo
    obtain ⟨y, m, mo⟩ := v
    subst hy
    subst hm
    subst hmo
    rw [hydrate_vehicle_eq, h1, lookupStep_some_ok _ _ _ h2 h3]
    show pyOr (vehicleDisplay ⟨"", "", ""⟩) "Unknown" = "Unknown"
    decide
  · intro n c h1 h2 h3 hf hl
    obtain ⟨f, l⟩ := c
    subst hf
    subst hl
    rw [hydrate_customer_eq, h1, lookupStep_some_ok _ _ _ h2 h3]
    show pyOr (customerDisplay ⟨"", ""⟩) "Unknown" = "Unknown"
    decide

/-- C9, witness: an all-empty successful lookup yields `"Unknown"`, and a
populated one yields a non-empty display string. -/
theorem hydrated_display_nonempty_witness :
    (hydrate emptyFieldsBackend roA).1.vehicle = "Unknown" ∧
    (hydrate emptyFieldsBackend roA).1.customer = "Unknown" ∧
    (hydrate bW roA).1.vehicle ≠ "" := by
  refine ⟨?_, ?_, (hydrated_display_nonempty bW roA).1⟩
  · exact (hydrated_display_nonempty emptyFieldsBackend roA).2.2.1 10 ⟨"", "", ""⟩
      rfl (by decide) rfl rfl rfl rfl
  · exact (hydrated_display_nonempty emptyFieldsBackend roA).2.2.2 20 ⟨"", ""⟩
      rfl (by decide) rfl rfl rfl

/-!  ## PATCH update with existence check

`update_repair_order` (`main.py` 208–228) and `update_vehicle`
(`routers/vehicles.py` 99–117): first GET the entity; on a 404 raise
`HTTPException(404, ...)` without issuing the PATCH; otherwise PATCH and
`raise_for_status`.  The update payload (`payload.dict(exclude_unset=True)`)
is carried opaquely as a list of key/value pairs. -/

/-- `update_repair_order` (`main.py` 208–228).  `checkRes` is the response
to the existence GET, `patchRes` the response the upstream would give to
the PATCH (consumed only when the PATCH is actually issued). -/
def update_repair_order (roId : Int) (payload : List (String × String))
    (checkRes patchRes : HttpResponse) : Except GatewayError String × List Request :=
  if checkRes.status = 404 then
    (.error (.httpException 404 ("RO ID " ++ toString roId ++ " not found")),
     [Request.getRepairOrder roId])
  else
    match raise_for_status patchRes with
    | .error e => (.error e, [Request.getRepairOrder roId, Request.patchRepairOrder roId payload])
    | .ok _ => (.ok patchRes.body, [Request.getRepairOrder roId, Request.patchRepairOrder roId payload])

/-- `update_vehicle` (`routers/vehicles.py` 99–117): same existence-check
shape; on the non-404 path the handler additionally sets
`payload["shopId"] = SHOP_ID` before issuing the PATCH. -/
def update_vehicle (vehicleId : Int) (payload : List (String × String)) (shopId : Int)
    (checkRes patchRes : HttpResponse) : Except GatewayError String × List Request :=
  if checkRes.status = 404 then
    (.error (.httpException 404 ("Vehicle ID " ++ toString vehicleId ++ " not found")),
     [Request.getVehicle vehicleId])
  else
    let fullPayload := payload ++ [("shopId", toString shopId)]
    match raise_for_status patchRes with
    | .error e => (.error e, [Request.getVehicle vehicleId, Request.patchVehicle vehicleId fullPayload])
    | .ok _ => (.ok patchRes.body, [Request.getVehicle vehicleId, Request.patchVehicle vehicleId fullPayload])

/-- Recognizer for PATCH requests in a trace. -/
def isPatchRequest : Request → Bool
  | .patchRepairOrder _ _ => true
  | .patchVehicle _ _ => true
  | _ => false

/-- C7.  When the upstream existence GET returns 404, both PATCH update
endpoints fail with a 404 `HTTPException` and issue no PATCH request at
all: the trace holds exactly the existence GET, so upstream state is
untouched on this path. -/
theorem patch_404_no_update (roId vehicleId shopId : Int)
    (pl1 pl2 : List (String × String)) (check1 patch1 check2 patch2 : HttpResponse)
    (h1 : check1.status = 404) (h2 : check2.status = 404) :
    update_repair_order roId pl1 check1 patch1 =
      (.error (.httpException 404 ("RO ID " ++ toString roId ++ " not found")),
        [Request.getRepairOrder roId]) ∧
    ((update_repair_order roId pl1 check1 patch1).2.any isPatchRequest) = false ∧
    update_vehicle vehicleId pl2 shopId check2 patch2 =
      (.error (.httpException 404 ("Vehicle ID " ++ toString vehicleId ++ " not found")),
        [Request.getVehicle vehicleId]) ∧
    ((update_vehicle vehicleId pl2 shopId check2 patch2).2.any isPatchRequest) = false := by
  refine ⟨?_, ?_, ?_, ?_⟩ <;>
    simp [update_repair_order, update_vehicle, isPatchRequest, h1, h2]

/-- A 404 response from the upstream existence check. -/
def notFoundResponse : HttpResponse := { status := 404, body := "not found", json := [] }

/-- C7, witness: updating repair order 5 and vehicle 9 when the existence
checks return 404. -/
theorem patch_404_no_update_witness :
    update_repair_order 5 [] notFoundResponse okTokenResponse =
      (.error (.httpException 404 ("RO ID " ++ toString (5 : Int) ++ " not found")),
        [Request.getRepairOrder 5]) ∧
    update_vehicle 9 [] 77 notFoundResponse okTokenResponse =
      (.error (.httpException 404 ("Vehicle ID " ++ toString (9 : Int) ++ " not found")),
        [Request.getVehicle 9]) := by
  have T := patch_404_no_update 5 9 77 [] [] notFoundResponse okTokenResponse
    notFoundResponse okTokenResponse rfl rfl
  exact ⟨T.1, T.2.2.1⟩

/-!  ## Paging scan in `get_customer_by_id`

`get_customer_by_id` (`main.py` 458–494): starting at page 0, fetch
`GET /customers?shop=...&size=100&page={n}`, `raise_for_status`, read
`content`; an empty page breaks the loop (then a 404 `HTTPException` is
raised); otherwise the page is scanned for the first customer whose `id`
equals the argument, which is returned projected; otherwise the next page
is fetched.  The Python `while True:` loop may diverge, so the embedding
is fuel-indexed: `none` means the fuel ran out (the loop is still
running); termination is having a result under some fuel. -/

/-- A parsed customer record from a listing page: the fields the scan
reads (`id`, names, phone numbers); the remaining projected fields are
verbatim copies like `id` and are elided. -/
structure CustomerRec where
  id : Option Int
  firstName : String
  lastName : String
  phoneNumbers : List String
deriving Repr, DecidableEq

/-- One listing-page response: status, raw body, parsed `content`. -/
structure CustomerPage where
  status : Nat
  body : String
  content : List CustomerRec
deriving Repr, DecidableEq

/-- The projected output record built at `main.py` 480–491 (elided fields
are verbatim copies). -/
structure CustomerOut where
  id : Option Int
  name : String
  phone : String
deriving Repr, DecidableEq

/-- The output dict of `get_customer_by_id` for a matched customer. -/
def project_customer (c : CustomerRec) : CustomerOut :=
  { id := c.id
    name := pyStrip (c.firstName ++ " " ++ c.lastName)
    phone := match c.phoneNumbers with
      | [] => "N/A"
      | n :: _ => n }

/-- The `while True:` loop of `get_customer_by_id`, fuel-indexed:
`get_customer_by_id_loop idArg pages fuel pg` runs at most `fuel`
iterations starting from page `pg`; `none` means the fuel was exhausted
with the loop still running. -/
def get_customer_by_id_loop (idArg : Int) (pages : Nat → CustomerPage) :
    Nat → Nat → Option (Except GatewayError CustomerOut)
  | 0, _ => none
  | fuel + 1, pg =>
    let res := pages pg
    if is_success res.status then
      if res.content.isEmpty then
        some (.error (.httpException 404 ("Customer ID " ++ toString idArg ++ " not found")))
      else
        match res.content.find? (fun c => c.id == some idArg) with
        | some c => some (.ok (project_customer c))
        | none => get_customer_by_id_loop idArg pages fuel (pg + 1)
    else
      some (.error (.httpStatusError res.status res.body))

/-- A page at which the scan stops: a non-2xx response (propagated as
`HTTPStatusError`), an empty `content` (404 path) or a matching customer. -/
def scanStop (idArg : Int) (pages : Nat → CustomerPage) (n : Nat) : Bool :=
  !(is_success (pages n).status) || (pages n).content.isEmpty ||
    ((pages n).content.find? (fun c => c.id == some idArg)).isSome

theorem get_customer_by_id_loop_step (idArg : Int) (pages : Nat → CustomerPage)
    (fuel pg : Nat) :
    get_customer_by_id_loop idArg pages (fuel + 1) pg =
      if is_success (pages pg).status then
        if (pages pg).content.isEmpty then
          some (.error (.httpException 404 ("Customer ID " ++ toString idArg ++ " not found")))
        else
          match (pages pg).content.find? (fun c => c.id == some idArg) with
          | some c => some (.ok (project_customer c))
          | none => get_customer_by_id_loop idArg pages fuel (pg + 1)
      else
        some (.error (.httpStatusError (pages pg).status (pages pg).body)) := by
  rw [get_customer_by_id_loop]

/-- Soundness of the scan: a loop run that produces a result stopped at
some page `n ≥ pg`, every page strictly between `pg` and `n` was a
continue page, and the result is determined by the kind of stop at `n`. -/
theorem get_customer_by_id_loop_spec (idArg : Int) (pages : Nat → CustomerPage) :
    ∀ fuel pg r, get_customer_by_id_loop idArg pages fuel pg = some r →
      ∃ n, pg ≤ n ∧ (∀ m, pg ≤ m → m < n → scanStop idArg pages m = false) ∧
        ((is_success (pages n).status = false ∧
            r = .error (.httpStatusError (pages n).status (pages n).body)) ∨
         (is_success (pages n).status = true ∧ (pages n).content = [] ∧
            r = .error (.httpException 404 ("Customer ID " ++ toString idArg ++ " not found"))) ∨
         (is_success (pages n).status = true ∧
            ∃ c, (pages n).content.find? (fun x => x.id == some idArg) = some c ∧
              r = .ok (project_customer c))) := by
  intro fuel
  induction fuel with
  | zero =>
    intro pg r h
    exact absurd h (by simp [get_customer_by_id_loop])
  | succ fuel ih =>
    intro pg r h
    simp only [get_customer_by_id_loop] at h
    by_cases hs : is_success (pages pg).status = true
    · rw [if_pos hs] at h
      by_cases he : (pages pg).content.isEmpty = true
      · rw [if_pos he] at h
        refine ⟨pg, le_refl _, fun m h1 h2 => absurd h2 (by omega), Or.inr (Or.inl ?_)⟩
        exact ⟨hs, List.isEmpty_iff.mp he, (Option.some.inj h).symm⟩
      · rw [if_neg he] at h
        cases hf : (pages pg).content.find? (fun x => x.id == some idArg) with
        | some c =>
          rw [hf] at h
          refine ⟨pg, le_refl _, fun m h1 h2 => absurd h2 (by omega), Or.inr (Or.inr ?_)⟩
          exact ⟨hs, c, hf, (Option.some.inj h).symm⟩
        | none =>
          rw [hf] at h
          obtain ⟨n, hn1, hn2, hn3⟩ := ih (pg + 1) r h
          refine ⟨n, by omega, ?_, hn3⟩
          intro m h1 h2
          by_cases hm : m = pg
          · subst hm
            simp [scanStop, hs, he, hf]
          · exact hn2 m (by omega) h2
    · rw [if_neg hs] at h
      refine ⟨pg, le_refl _, fun m h1 h2 => absurd h2 (by omega), Or.inl ?_⟩
      exact ⟨Bool.eq_false_iff.mpr hs, (Option.some.inj h).symm⟩

/-- Completeness of the scan: if some page `pg + n` is a stop page, the
loop starting at `pg` with fuel `n + 1` produces a result. -/
theorem get_customer_by_id_loop_reaches (idArg : Int) (pages : Nat → CustomerPage) :
    ∀ n pg, scanStop idArg pages (pg + n) = true →
      (get_customer_by_id_loop idArg pages (n + 1) pg).isSome = true := by
  intro n
  induction n with
  | zero =>
    intro pg h
    rw [Nat.add_zero] at h
    rw [get_customer_by_id_loop_step]
    by_cases hs : is_success (pages pg).status = true
    · by_cases he : (pages pg).content.isEmpty = true
      · rw [if_pos hs, if_pos he]
        rfl
      · cases hf : (pages pg).content.find? (fun c => c.id == some idArg) with
        | some c =>
          rw [if_pos hs, if_neg he]
          rfl
        | none =>
          exfalso
          simp only [scanStop, hf] at h
          simp [hs, he] at h
    · rw [if_neg hs]
      rfl
  | succ n ih =>
    intro pg h
    rw [get_customer_by_id_loop_step]
    by_cases hs : is_success (pages pg).status = true
    · by_cases he : (pages pg).content.isEmpty = true
      · rw [if_pos hs, if_pos he]
        rfl
      · cases hf : (pages pg).content.find? (fun c => c.id == some idArg) with
        | some c =>
          rw [if_pos hs, if_neg he]
          rfl
        | none =>
          have h' : scanStop idArg pages ((pg + 1) + n) = true := by
            have heq : (pg + 1) + n = pg + (n + 1) := by omega
            rw [heq]
            exact h
          rw [if_pos hs, if_neg he]
          exact ih (pg + 1) h'
    · rw [if_neg hs]
      rfl

/-- A backend that keeps answering 500 with a non-empty, non-matching page. -/
def errPage : CustomerPage := ⟨500, "boom", [⟨some 1, "X", "Y", []⟩]⟩

/-- Constant erroring page oracle. -/
def errPages : Nat → CustomerPage := fun _ => errPage

/-- C10, counterexample.  The claim states the scan terminates iff some
page yields a matching customer or an empty `content`.  Against an
upstream that always answers 500 with a non-empty, non-matching page, the
scan terminates immediately (`raise_for_status` raises on page 0), yet no
page matches and no page is empty — the claimed equivalence fails. -/
theorem scan_termination_counterexample :
    (∃ fuel, (get_customer_by_id_loop 42 errPages fuel 0).isSome = true) ∧
    ¬ ((∃ fuel, (get_customer_by_id_loop 42 errPages fuel 0).isSome = true) ↔
        (∃ n, (errPages n).content.isEmpty = true ∨
          ((errPages n).content.find? (fun c => c.id == some 42)).isSome = true)) := by
  have hterm : ∃ fuel, (get_customer_by_id_loop 42 errPages fuel 0).isSome = true := ⟨1, rfl⟩
  refine ⟨hterm, ?_⟩
  intro h
  rcases h.mp hterm with ⟨n, hn | hn⟩
  · exact absurd hn (by simp [errPages, errPage])
  · exact absurd hn (by simp [errPages, errPage])

/-- C10, amended.  `get_customer_by_id` scans pages in increasing order
and terminates iff some page is a stop page — a matching customer, an
empty `content`, or additionally a non-2xx listing response (which
propagates as `HTTPStatusError`).  Moreover any produced result is fully
characterized: every page before the stop page was a 2xx, non-empty,
non-matching page; a 404 arises only from an empty-content page; a
success returns the projection of the first customer (in page-scan order)
whose id equals the argument. -/
theorem get_customer_by_id_spec (idArg : Int) (pages : Nat → CustomerPage) :
    ((∃ fuel, (get_customer_by_id_loop idArg pages fuel 0).isSome = true) ↔
      (∃ n, scanStop idArg pages n = true)) ∧
    (∀ fuel r, get_customer_by_id_loop idArg pages fuel 0 = some r →
      ∃ n, (∀ m, m < n → scanStop idArg pages m = false) ∧
        ((is_success (pages n).status = false ∧
            r = .error (.httpStatusError (pages n).status (pages n).body)) ∨
         (is_success (pages n).status = true ∧ (pages n).content = [] ∧
            r = .error (.httpException 404 ("Customer ID " ++ toString idArg ++ " not found"))) ∨
         (is_success (pages n).status = true ∧
            ∃ c, (pages n).content.find? (fun x => x.id == some idArg) = some c ∧
              r = .ok (project_customer c)))) := by
  constructor
  · constructor
    · rintro ⟨fuel, hf⟩
      cases hr : get_customer_by_id_loop idArg pages fuel 0 with
      | none => rw [hr] at hf; exact absurd hf (by simp)
      | some r =>
        obtain ⟨n, _, _, hcase⟩ := get_customer_by_id_loop_spec idArg pages fuel 0 r hr
        refine ⟨n, ?_⟩
        rcases hcase with ⟨hs, _⟩ | ⟨_, hc, _⟩ | ⟨_, c, hc, _⟩
        · simp [scanStop, hs]
        · simp [scanStop, hc]
        · simp [scanStop, hc]
    · rintro ⟨n, hn⟩
      refine ⟨n + 1, get_customer_by_id_loop_reaches idArg pages n 0 ?_⟩
      rw [Nat.zero_add]
      exact hn
  · intro fuel r h
    obtain ⟨n, _, hn2, hn3⟩ := get_customer_by_id_loop_spec idArg pages fuel 0 r h
    exact ⟨n, fun m hm => hn2 m (Nat.zero_le m) hm, hn3⟩

/-- A customer record matching id 42. -/
def cAlice : CustomerRec := ⟨some 42, "Alice", "Smith", ["555"]⟩

/-- A constant page oracle whose first page contains the match. -/
def matchPages : Nat → CustomerPage := fun _ => ⟨200, "ok", [cAlice]⟩

/-- C10 (amended), witness: a scan whose first page contains the requested
customer stops there with its projection. -/
theorem get_customer_by_id_spec_witness :
    ((matchPages 0).content.find? (fun x => x.id == some 42)).isSome = true ∧
    get_customer_by_id_loop 42 matchPages 1 0 = some (.ok (project_customer cAlice)) := by
  have h := (get_customer_by_id_spec 42 matchPages).2 1 (.ok (project_customer cAlice)) rfl
  obtain ⟨n, hml, hcase⟩ := h
  have hn0 : n = 0 := by
    by_contra hne
    have h0 := hml 0 (by omega)
    have h1 : scanStop 42 matchPages 0 = true := by decide
    rw [h1] at h0
    cases h0
  subst hn0
  rcases hcase with ⟨hs, _⟩ | ⟨_, hc, _⟩ | ⟨_, c, hf, _⟩
  · exact absurd hs (by decide)
  · exact absurd hc (by decide)
  · refine ⟨?_, rfl⟩
    rw [hf]
    rfl

/-!  ## Scheduling model for the fan-out handlers

Cooperative-concurrency model for the two hydration sites.  Each record's
processing is a coroutine that performs its lookups strictly in sequence:
a lookup spans an `issue` event (the GET is awaited) and a `complete`
event (the response arrived, the coroutine resumes).  Under
`asyncio.gather` (`main.py` 168) the per-record coroutines may interleave
arbitrarily between suspension points, so the set of possible executions
is the set of interleavings of the per-coroutine event sequences.  In
`get_jobs_by_ro` (`main.py` 280–321) the employee lookups happen inside a
plain `for` loop in one coroutine: the only possible execution is the
sequential concatenation of the per-record event sequences. -/

/-- A scheduling event: record `rec` issues (awaits) its `k`-th lookup, or
that lookup completes and the record's coroutine resumes. -/
inductive Ev where
  | issue (rec : Nat) (k : Nat)
  | complete (rec : Nat) (k : Nat)
deriving Repr, DecidableEq, BEq

/-- The event sequence of one record's coroutine: its lookups in program
order, each as `issue` directly followed (from this coroutine's view) by
`complete`. -/
def coroutineEvents (i : Nat) : List Nat → List Ev
  | [] => []
  | k :: ks => Ev.issue i k :: Ev.complete i k :: coroutineEvents i ks

/-- All interleavings of two sequences, keeping each sequence's internal
order (fuel-structured so that it evaluates; `interleave2` supplies
sufficient fuel). -/
def interleaveF {α : Type} : Nat → List α → List α → List (List α)
  | 0, xs, ys => [xs ++ ys]
  | _ + 1, [], ys => [ys]
  | _ + 1, x :: xs, [] => [x :: xs]
  | fuel + 1, x :: xs, y :: ys =>
    ((interleaveF fuel xs (y :: ys)).map (fun t => x :: t)) ++
      ((interleaveF fuel (x :: xs) ys).map (fun t => y :: t))

/-- All interleavings of two sequences. -/
def interleave2 {α : Type} (xs ys : List α) : List (List α) :=
  interleaveF (xs.length + ys.length) xs ys

/-- All interleavings of a family of sequences. -/
def interleavingsAll {α : Type} : List (List α) → List (List α)
  | [] => [[]]
  | l :: ls => ((interleavingsAll ls).map (fun t => interleave2 l t)).join

/-- Assign record indices `i, i+1, ...` to the lookup lists of a page. -/
def indexedEvents : Nat → List (List Nat) → List (List Ev)
  | _, [] => []
  | i, ks :: rest => coroutineEvents i ks :: indexedEvents (i + 1) rest

/-- The lookups the `hydrate` coroutine of one repair order performs, in
program order: `0` is the vehicle GET, `1` the customer GET, each issued
only when its foreign key is truthy (`main.py` 132–157). -/
def openROLookups (ro : RepairOrder) : List Nat :=
  (if fkTruthy ro.vehicleId then [0] else []) ++
    (if fkTruthy ro.customerId then [1] else [])

/-- The possible executions of the `asyncio.gather` fan-out of
`get_open_repair_orders`: all interleavings of the per-record coroutines. -/
def open_repair_orders_schedules (ros : List RepairOrder) : List (List Ev) :=
  interleavingsAll (indexedEvents 0 (ros.map openROLookups))

/-- A parsed job record; `technicianId` drives the employee lookup of
`get_jobs_by_ro` (`if job.get("technicianId"):`, `main.py` 297). -/
structure Job where
  id : Option Int
  name : Option String
  technicianId : Option Int
deriving Repr, DecidableEq

/-- The lookups of one job iteration: `0` is the employee GET, issued only
for a truthy `technicianId`. -/
def jobLookups (j : Job) : List Nat :=
  if fkTruthy j.technicianId then [0] else []

/-- The single possible execution of the sequential `for job in jobs:`
loop of `get_jobs_by_ro` (`main.py` 295–320): every record's lookup is
awaited to completion before the next record is processed. -/
def get_jobs_by_ro_trace (js : List Job) : List Ev :=
  (indexedEvents 0 (js.map jobLookups)).join

/-- The schedule set of `get_jobs_by_ro`: the loop admits exactly one
execution order. -/
def get_jobs_by_ro_schedules (js : List Job) : List (List Ev) :=
  [get_jobs_by_ro_trace js]

/-- Index of the first occurrence of an event in a trace. -/
def evIdx : List Ev → Ev → Option Nat
  | [], _ => none
  | x :: xs, e => if x = e then some 0 else (evIdx xs e).map (fun n => n + 1)

/-- `a` occurs (first) strictly before `b` in the trace. -/
def occursBefore (t : List Ev) (a b : Ev) : Bool :=
  match evIdx t a, evIdx t b with
  | some i, some j => decide (i < j)
  | _, _ => false

/-- Two jobs with assigned technicians. -/
def jobT1 : Job := ⟨some 1, some "brakes", some 7⟩

/-- A second job with an assigned technician. -/
def jobT2 : Job := ⟨some 2, some "oil change", some 8⟩

/-- C8, counterexample.  The claim asserts that, within one hydration
pass, all related-entity lookups across records are issued concurrently
and a record's assembly never waits on a sibling's lookups.  In
`get_jobs_by_ro` (one of the hydration passes the claim covers) the
employee lookups run in a sequential `for` loop: for two jobs with
technicians, the schedule set is the single sequential trace, in which job
1's only lookup is issued strictly after job 0's lookup completes — there
is no execution in which they overlap. -/
theorem jobs_sequential_counterexample :
    get_jobs_by_ro_schedules [jobT1, jobT2] =
      [[Ev.issue 0 0, Ev.complete 0 0, Ev.issue 1 0, Ev.complete 1 0]] ∧
    (get_jobs_by_ro_schedules [jobT1, jobT2]).all
      (fun t => occursBefore t (Ev.complete 0 0) (Ev.issue 1 0)) = true ∧
    (get_jobs_by_ro_schedules [jobT1, jobT2]).all
      (fun t => !(occursBefore t (Ev.issue 1 0) (Ev.complete 0 0))) = true := by
  refine ⟨rfl, by decide, by decide⟩

theorem lookupStep_congr {α : Type} (l l' : Int → Option α) (d : α → String)
    (r : Int → Request) (fk : Option Int) (h : ∀ n, fk = some n → l n = l' n) :
    lookupStep l d r fk = lookupStep l' d r fk := by
  cases fk with
  | none => rfl
  | some i => simp [lookupStep, h i rfl]

/-- C8, amended.  In the `asyncio.gather` hydration of
`get_open_repair_orders`, sibling records' lookups really are concurrent:
for two records with truthy foreign keys there is a schedule in which
record 1's first lookup is issued before record 0's completes, and a
record's output depends only on the backend's responses to its own
lookups (so its assembly waits on no sibling data).  In `get_jobs_by_ro`,
however, the lookups are strictly sequential: in its unique schedule a
later record's lookup is always issued after the earlier record's lookup
completes, and no schedule overlaps them. -/
theorem hydration_concurrency_amended
    (b b' : Backend) (ro r0 r1 : RepairOrder) (j0 j1 : Job) (rest : List Job)
    (h0 : fkTruthy r0.vehicleId = true) (h1 : fkTruthy r0.customerId = true)
    (h2 : fkTruthy r1.vehicleId = true) (h3 : fkTruthy r1.customerId = true)
    (hv : ∀ n, ro.vehicleId = some n → b.vehicles n = b'.vehicles n)
    (hc : ∀ n, ro.customerId = some n → b.customers n = b'.customers n)
    (ht0 : fkTruthy j0.technicianId = true) (ht1 : fkTruthy j1.technicianId = true) :
    (∃ t ∈ open_repair_orders_schedules [r0, r1],
        occursBefore t (Ev.issue 1 0) (Ev.complete 0 0) = true) ∧
    hydrate b ro = hydrate b' ro ∧
    occursBefore (get_jobs_by_ro_trace (j0 :: j1 :: rest))
        (Ev.complete 0 0) (Ev.issue 1 0) = true ∧
    (∀ t, t ∈ get_jobs_by_ro_schedules (j0 :: j1 :: rest) →
        occursBefore t (Ev.issue 1 0) (Ev.complete 0 0) = false) := by
  have hA : openROLookups r0 = [0, 1] := by simp [openROLookups, h0, h1]
  have hB : openROLookups r1 = [0, 1] := by simp [openROLookups, h2, h3]
  have e0 : jobLookups j0 = [0] := by simp [jobLookups, ht0]
  have e1 : jobLookups j1 = [0] := by simp [jobLookups, ht1]
  refine ⟨?_, ?_, ?_, ?_⟩
  · simp only [open_repair_orders_schedules, List.map_cons, List.map_nil, hA, hB]
    decide
  · have hveh := lookupStep_congr b.vehicles b'.vehicles vehicleDisplay
      Request.getVehicle ro.vehicleId hv
    have hcus := lookupStep_congr b.customers b'.customers customerDisplay
      Request.getCustomer ro.customerId hc
    simp only [hydrate]
    rw [hveh, hcus]
  · simp only [get_jobs_by_ro_trace, List.map_cons, e0, e1, indexedEvents,
      coroutineEvents, List.join]
    simp [occursBefore, evIdx]
  · intro t ht
    simp only [get_jobs_by_ro_schedules, List.mem_singleton] at ht
    subst ht
    simp only [get_jobs_by_ro_trace, List.map_cons, e0, e1, indexedEvents,
      coroutineEvents, List.join]
    simp [occursBefore, evIdx]

/-- C8 (amended), witness: concrete records and jobs with truthy foreign
keys. -/
theorem hydration_concurrency_amended_witness :
    hydrate bW roA = hydrate bW roA ∧
    occursBefore (get_jobs_by_ro_trace [jobT1, jobT2])
      (Ev.complete 0 0) (Ev.issue 1 0) = true := by
  have T := hydration_concurrency_amended bW bW roA roA roB jobT1 jobT2 []
    (by decide) (by decide) (by decide) (by decide)
    (fun n _ => rfl) (fun n _ => rfl) (by decide) (by decide)
  exact ⟨T.2.1, T.2.2.1⟩

end McpTek
